import Mathlib

/-!
Shallow embedding of the lead-scoring core of `src/index.js`
(the finalized scorer `scoreLead`, lines 163-298, together with the
string/number helpers it relies on, lines 50-97).

Representation choices:
* A `LeadRecord` value (string, number, or boolean in JavaScript) is
  represented by its JavaScript string rendering (`String(v)`), since
  `scoreLead` only ever consumes a field value through `toStr`/`lower`
  after `pick`; `pick`'s presence test is modelled by `Option`.
* `Number(...)` applied to a digits-and-dots string is modelled exactly
  over `ℚ` (`none` = `NaN`); the scorer only compares the parsed value
  against integer thresholds.
* The two geo-gate environment switches (`REQUIRE_CA`, `REQUIRE_KERN`,
  read through `truthy` at lines 168-169) are modelled as the two
  booleans of `GateConfig`.
* `Math.round` at line 279 is applied to a sum of integer constants and
  is therefore the identity; the score is carried as `Int`.
-/

namespace RenewBrain

/-- Characters removed by JavaScript string trimming, approximated by
`Char.isWhitespace`. -/
def trimmable (c : Char) : Bool := c.isWhitespace

/-- Drop trimmable characters from both ends of a character list. -/
def trimList (cs : List Char) : List Char :=
  ((cs.dropWhile trimmable).reverse.dropWhile trimmable).reverse

/-- JavaScript `s.trim()`. -/
def jsTrim (s : String) : String := String.mk (trimList s.toList)

/-- JavaScript `s.toLowerCase()` (ASCII approximation). -/
def jsToLower (s : String) : String := String.mk (s.toList.map Char.toLower)

/-- JavaScript `s.toUpperCase()` (ASCII approximation). -/
def jsToUpper (s : String) : String := String.mk (s.toList.map Char.toUpper)

/-- Model of `toStr` (src/index.js line 50): `(v ?? "").toString().trim()`.
An absent value (`undefined`) renders as the empty string. -/
def toStr (v : Option String) : String := jsTrim (v.getD "")

/-- Model of `lower` (line 54) on a plain string: `toStr(v).toLowerCase()`. -/
def lowerS (s : String) : String := jsToLower (jsTrim s)

/-- Model of `lower` (line 54) on a possibly-absent value. -/
def lower (v : Option String) : String := lowerS (v.getD "")

/-- Does the character list `l` start with the list `p`? -/
def startsWith : List Char → List Char → Bool
  | [], _ => true
  | _ :: _, [] => false
  | a :: p, b :: l => a == b && startsWith p l

/-- Does the character list `l` contain `p` as a contiguous run? -/
def containsSub (p : List Char) : List Char → Bool
  | [] => startsWith p []
  | c :: t => startsWith p (c :: t) || containsSub p t

/-- JavaScript `s.includes(pat)`. -/
def jsIncludes (s pat : String) : Bool := containsSub pat.toList s.toList

/-- Model of `.replace(/[^0-9.]/g, "")` (lines 214, 229, 262): keep only
digits and decimal points. -/
def stripNumeric (s : String) : String :=
  String.mk (s.toList.filter (fun c => c.isDigit || c = '.'))

/-- Numeric value of a list of decimal digits (empty list = 0). -/
def digitsToNat (cs : List Char) : Nat :=
  cs.foldl (fun a c => a * 10 + (c.toNat - '0'.toNat)) 0

/-- Model of JavaScript `Number(s)` restricted to strings of digits and
dots (the only shape the scorer feeds it, after `stripNumeric`):
`none` is `NaN`; the empty string parses to `0`; a lone dot or a string
with two dots is `NaN`. -/
def jsNumber (s : String) : Option ℚ :=
  let cs := s.toList
  if cs.all (fun c => c.isDigit || c = '.') then
    let ip := cs.takeWhile (fun c => c ≠ '.')
    let rest := cs.dropWhile (fun c => c ≠ '.')
    match rest with
    | [] => some (digitsToNat ip : ℚ)
    | _ :: fp =>
      if fp.contains '.' then none
      else if ip.isEmpty && fp.isEmpty then none
      else some ((digitsToNat ip : ℚ) + (digitsToNat fp : ℚ) / (10 : ℚ) ^ fp.length)
  else none

/-- Model of `clamp` (src/index.js line 63): `Math.max(min, Math.min(max, n))`. -/
def clamp (n lo hi : Int) : Int := max lo (min hi n)

/-- A lead record: an open mapping from field name to the string rendering
of the submitted value. -/
abbrev LeadRecord := List (String × String)

/-- Model of `pick` (src/index.js lines 84-90): first alias whose value is
present with a non-empty trimmed rendering wins. -/
def pick (lead : LeadRecord) : List String → Option String
  | [] => none
  | k :: ks =>
    match List.lookup k lead with
    | some v => if jsTrim v ≠ "" then some v else pick lead ks
    | none => pick lead ks

/-- Model of `yn` (src/index.js lines 92-97): tri-state yes/no
interpretation of a possibly-absent value. -/
def yn (v : Option String) : String :=
  let s := lower v
  if ["yes", "y", "true", "1", "checked", "on"].contains s then "yes"
  else if ["no", "n", "false", "0", "off"].contains s then "no"
  else "unknown"

/-- The two optional geo-gate switches (env `REQUIRE_CA` / `REQUIRE_KERN`
after `truthy`, src/index.js lines 27-28 and 168-169). -/
structure GateConfig where
  requireCA : Bool
  requireKern : Bool
deriving DecidableEq

/-- Output record of the scorer (src/index.js lines 290-297). -/
structure ScoreResult where
  score : Int
  tier : String
  lead_temperature : String
  reject_reasons : List String
  score_reasons : String
  marshall_eligible : Bool
deriving DecidableEq

/-- Alias priority for the state field (src/index.js line 171). -/
def stateKeys : List String := ["State", "state"]

/-- Alias priority for the county field (line 172). -/
def countyKeys : List String := ["County", "county"]

/-- Alias priority for the ownership field (line 192). -/
def ownsKeys : List String := ["Owns property?", "owns_property", "owns", "own", "homeowner"]

/-- Alias priority for the bill field (line 213). -/
def billKeys : List String := ["Avg monthly bill", "avg_monthly_bill", "bill"]

/-- Alias priority for the roof-age field (line 228). -/
def roofKeys : List String := ["Roof age (years)", "roof_age_years", "roof_age"]

/-- Alias priority for the sun-exposure field (line 242). -/
def sunKeys : List String := ["Sun exposure", "sun_exposure"]

/-- Alias priority for the HOA field (line 254). -/
def hoaKeys : List String := ["HOA?", "hoa", "has_hoa"]

/-- Alias priority for the true-up field (line 261). -/
def trueUpKeys : List String := ["Annual true-up cost", "true_up", "trueup"]

/-- Alias priority for the property-type field (line 273). -/
def ptypeKeys : List String := ["Property type", "property_type"]

/-- Textual fallback of the bill signal (src/index.js lines 220-224). -/
def billTextSignal (billRaw : String) : Int × List String :=
  let b := lowerS billRaw
  if jsIncludes b "250" then (18, ["High bill"])
  else if jsIncludes b "150" then (10, ["Mid bill"])
  else if b ≠ "" then (4, ["Bill provided"])
  else (0, ["Bill unknown"])

/-- Bill signal (src/index.js lines 213-225): score delta and appended
reasons for the trimmed bill field. -/
def billSignal (billRaw : String) : Int × List String :=
  match jsNumber (stripNumeric billRaw) with
  | some billNum =>
    if 0 < billNum then
      if 250 ≤ billNum then (18, ["High bill"])
      else if 150 ≤ billNum then (10, ["Mid bill"])
      else (2, ["Low bill"])
    else billTextSignal billRaw
  | none => billTextSignal billRaw

/-- Textual fallback of the roof-age signal (src/index.js lines 235-238). -/
def roofTextSignal (roofAgeRaw : String) : Int × List String :=
  let r := lowerS roofAgeRaw
  if jsIncludes r "under" || jsIncludes r "<" || jsIncludes r "10" then (12, ["Roof likely good"])
  else if jsIncludes r "20" then (6, ["Roof maybe"])
  else (0, ["Roof unknown"])

/-- Roof-age signal (src/index.js lines 228-239). -/
def roofSignal (roofAgeRaw : String) : Int × List String :=
  match jsNumber (stripNumeric roofAgeRaw) with
  | some roofAgeNum =>
    if 0 < roofAgeNum then
      if roofAgeNum ≤ 10 then (12, ["Roof <= 10 years"])
      else if roofAgeNum ≤ 20 then (6, ["Roof 10–20 years"])
      else (0, ["Roof > 20 years"])
    else roofTextSignal roofAgeRaw
  | none => roofTextSignal roofAgeRaw

/-- Sun-exposure signal (src/index.js lines 242-251); the argument is the
already-lowercased resolved field. -/
def sunSignal (sun : String) : Int × List String :=
  if jsIncludes sun "full" || jsIncludes sun "great" || jsIncludes sun "high" then
    (10, ["Good sun exposure"])
  else if jsIncludes sun "partial" || jsIncludes sun "medium" then
    (5, ["Medium sun exposure"])
  else if sun ≠ "" then (0, ["Low/unknown sun exposure"])
  else (0, ["Sun exposure unknown"])

/-- HOA signal (src/index.js lines 254-258). -/
def hoaSignal (hoaRaw : Option String) : Int × List String :=
  let hoa := yn hoaRaw
  if hoa = "yes" then (-8, ["HOA friction"])
  else if hoa = "no" then (4, ["No HOA"])
  else (-2, ["HOA unknown"])

/-- True-up signal (src/index.js lines 261-270); appends no reason when
the field is absent or numerically and textually uninformative. -/
def trueUpSignal (trueUpRaw : String) : Int × List String :=
  let trueUpTxt := lowerS trueUpRaw
  match jsNumber (stripNumeric trueUpRaw) with
  | some trueUpNum =>
    if 0 < trueUpNum then
      if 500 ≤ trueUpNum then (6, ["High true-up cost"])
      else (2, ["True-up cost indicated"])
    else if jsIncludes trueUpTxt "yes" || jsIncludes trueUpTxt "true" then
      (4, ["True-up indicated"])
    else (0, [])
  | none =>
    if jsIncludes trueUpTxt "yes" || jsIncludes trueUpTxt "true" then
      (4, ["True-up indicated"])
    else (0, [])

/-- Property-type signal (src/index.js lines 273-276); the argument is the
already-lowercased resolved field. -/
def ptypeSignal (ptype : String) : Int × List String :=
  if jsIncludes ptype "single" then (4, ["Single family"])
  else if jsIncludes ptype "mobile" || jsIncludes ptype "manufact" then
    (-6, ["Mobile/manufactured complexity"])
  else if ptype ≠ "" then (0, ["Property type noted"])
  else (0, [])

/-- Geo-gate reject reasons (src/index.js lines 171-179): each gate fires
only when its switch is enabled and the resolved field is non-empty. -/
def geoRejects (g : GateConfig) (stateRaw countyRaw : Option String) : List String :=
  let state := jsToUpper (toStr stateRaw)
  let county := lower countyRaw
  (if g.requireCA = true ∧ state ≠ "" ∧ state ≠ "CA" ∧ state ≠ "CALIFORNIA" then
    ["Outside California"] else [])
  ++ (if g.requireKern = true ∧ county ≠ "" ∧ jsIncludes county "kern" = false then
    ["Outside Kern County"] else [])

/-- The common disqualified result shape (src/index.js lines 181-188 and
198-205). -/
def disqResult (rejectReasons : List String) (scoreReasons : String) : ScoreResult :=
  ⟨0, "Disqualified", "Cold", rejectReasons, scoreReasons, false⟩

/-- The non-disqualified tail of the scorer (src/index.js lines 207-297):
base score 50, six additive signals, clamp, tiering. `Math.round` of the
integer-valued score (line 279) is the identity and is omitted. -/
def qualifiedResult (billRaw roofRaw sun : String) (hoaRaw : Option String)
    (trueUpRaw ptype : String) : ScoreResult :=
  let bill := billSignal billRaw
  let roof := roofSignal roofRaw
  let sunS := sunSignal sun
  let hoa := hoaSignal hoaRaw
  let tru := trueUpSignal trueUpRaw
  let pt := ptypeSignal ptype
  let score := clamp (50 + bill.1 + roof.1 + sunS.1 + hoa.1 + tru.1 + pt.1) 0 100
  let reasons := "Homeowner" :: (bill.2 ++ roof.2 ++ sunS.2 ++ hoa.2 ++ tru.2 ++ pt.2)
  if 75 ≤ score then
    ⟨score, "Qualified – Send to Marshall", "Hot", [], String.intercalate " | " reasons, true⟩
  else if 55 ≤ score then
    ⟨score, "Warm – Review Later", "Warm", [], String.intercalate " | " reasons, false⟩
  else
    ⟨score, "Educational Only", "Cold", [], String.intercalate " | " reasons, false⟩

/-- The scorer after field resolution: geo gates, ownership hard gate,
then the additive signals (src/index.js lines 163-298). -/
def scoreLeadResolved (g : GateConfig)
    (stateRaw countyRaw ownsRaw billRaw roofRaw sunRaw hoaRaw trueUpRaw ptypeRaw :
      Option String) : ScoreResult :=
  let rejectReasons := geoRejects g stateRaw countyRaw
  if rejectReasons ≠ [] then
    disqResult rejectReasons (String.intercalate " | " rejectReasons)
  else if yn ownsRaw ≠ "yes" then
    disqResult ["Not homeowner"] "Not homeowner"
  else
    qualifiedResult (toStr billRaw) (toStr roofRaw) (lower sunRaw) hoaRaw
      (toStr trueUpRaw) (lower ptypeRaw)

/-- Model of `scoreLead` (src/index.js lines 163-298): resolve each logical
field through its alias priority list, then score. -/
def scoreLead (g : GateConfig) (lead : LeadRecord) : ScoreResult :=
  scoreLeadResolved g (pick lead stateKeys) (pick lead countyKeys) (pick lead ownsKeys)
    (pick lead billKeys) (pick lead roofKeys) (pick lead sunKeys) (pick lead hoaKeys)
    (pick lead trueUpKeys) (pick lead ptypeKeys)

/-- The reasons appended by the six step-4 signals of a record, in
evaluation order (bill, roof age, sun exposure, HOA, true-up,
property type). -/
def stepFourReasons (lead : LeadRecord) : List String :=
  (billSignal (toStr (pick lead billKeys))).2
  ++ (roofSignal (toStr (pick lead roofKeys))).2
  ++ (sunSignal (lower (pick lead sunKeys))).2
  ++ (hoaSignal (pick lead hoaKeys)).2
  ++ (trueUpSignal (toStr (pick lead trueUpKeys))).2
  ++ (ptypeSignal (lower (pick lead ptypeKeys))).2

/-- Well-formedness of a scoring result: score in range, tier and
temperature drawn from the fixed label sets of src/index.js. -/
def wellFormed (r : ScoreResult) : Prop :=
  0 ≤ r.score ∧ r.score ≤ 100
  ∧ r.tier ∈ (["Disqualified", "Qualified – Send to Marshall", "Warm – Review Later",
      "Educational Only"] : List String)
  ∧ r.lead_temperature ∈ (["Hot", "Warm", "Cold"] : List String)

theorem clamp_nonneg (n : Int) : 0 ≤ clamp n 0 100 :=
  le_max_left 0 _

theorem clamp_le_hundred (n : Int) : clamp n 0 100 ≤ 100 :=
  max_le (by norm_num) (min_le_left _ _)

theorem clamp_ge_of_ge (n : Int) (b : Int) (hb : b ≤ 100) (h : b ≤ n) :
    b ≤ clamp n 0 100 := by
  unfold clamp
  exact le_trans (le_min hb h) (le_max_right _ _)

theorem clamp_mono (n m : Int) (h : n ≤ m) : clamp n 0 100 ≤ clamp m 0 100 :=
  max_le_max le_rfl (min_le_min le_rfl h)

theorem billTextSignal_lb (s : String) : 0 ≤ (billTextSignal s).1 := by
  simp only [billTextSignal]
  split_ifs <;> norm_num

theorem billSignal_lb (s : String) : 0 ≤ (billSignal s).1 := by
  simp only [billSignal]
  split
  · split_ifs <;> first | exact billTextSignal_lb s | norm_num
  · exact billTextSignal_lb s

theorem roofTextSignal_lb (s : String) : 0 ≤ (roofTextSignal s).1 := by
  simp only [roofTextSignal]
  split_ifs <;> norm_num

theorem roofSignal_lb (s : String) : 0 ≤ (roofSignal s).1 := by
  simp only [roofSignal]
  split
  · split_ifs <;> first | exact roofTextSignal_lb s | norm_num
  · exact roofTextSignal_lb s

theorem sunSignal_lb (s : String) : 0 ≤ (sunSignal s).1 := by
  simp only [sunSignal]
  split_ifs <;> norm_num

theorem hoaSignal_lb (v : Option String) : -8 ≤ (hoaSignal v).1 := by
  simp only [hoaSignal]
  split_ifs <;> norm_num

theorem trueUpSignal_lb (s : String) : 0 ≤ (trueUpSignal s).1 := by
  simp only [trueUpSignal]
  split
  · split_ifs <;> norm_num
  · split_ifs <;> norm_num

theorem ptypeSignal_lb (s : String) : -6 ≤ (ptypeSignal s).1 := by
  simp only [ptypeSignal]
  split_ifs <;> norm_num

theorem qualifiedResult_score (billRaw roofRaw sun : String) (hoaRaw : Option String)
    (trueUpRaw ptype : String) :
    (qualifiedResult billRaw roofRaw sun hoaRaw trueUpRaw ptype).score =
      clamp (50 + (billSignal billRaw).1 + (roofSignal roofRaw).1 + (sunSignal sun).1
        + (hoaSignal hoaRaw).1 + (trueUpSignal trueUpRaw).1 + (ptypeSignal ptype).1) 0 100 := by
  simp only [qualifiedResult]
  split_ifs <;> rfl

theorem qualifiedResult_reject (billRaw roofRaw sun : String) (hoaRaw : Option String)
    (trueUpRaw ptype : String) :
    (qualifiedResult billRaw roofRaw sun hoaRaw trueUpRaw ptype).reject_reasons = [] := by
  simp only [qualifiedResult]
  split_ifs <;> rfl

theorem qualifiedResult_reasons (billRaw roofRaw sun : String) (hoaRaw : Option String)
    (trueUpRaw ptype : String) :
    (qualifiedResult billRaw roofRaw sun hoaRaw trueUpRaw ptype).score_reasons =
      String.intercalate " | " ("Homeowner" ::
        ((billSignal billRaw).2 ++ (roofSignal roofRaw).2 ++ (sunSignal sun).2
          ++ (hoaSignal hoaRaw).2 ++ (trueUpSignal trueUpRaw).2 ++ (ptypeSignal ptype).2)) := by
  simp only [qualifiedResult]
  split_ifs <;> rfl

theorem qualifiedResult_tier (billRaw roofRaw sun : String) (hoaRaw : Option String)
    (trueUpRaw ptype : String) :
    (qualifiedResult billRaw roofRaw sun hoaRaw trueUpRaw ptype).tier ∈
      (["Qualified – Send to Marshall", "Warm – Review Later", "Educational Only"] :
        List String) := by
  simp only [qualifiedResult]
  split_ifs <;> simp

theorem qualifiedResult_temp (billRaw roofRaw sun : String) (hoaRaw : Option String)
    (trueUpRaw ptype : String) :
    (qualifiedResult billRaw roofRaw sun hoaRaw trueUpRaw ptype).lead_temperature ∈
      (["Hot", "Warm", "Cold"] : List String) := by
  simp only [qualifiedResult]
  split_ifs <;> simp

theorem qualifiedResult_score_ge (billRaw roofRaw sun : String) (hoaRaw : Option String)
    (trueUpRaw ptype : String) :
    36 ≤ (qualifiedResult billRaw roofRaw sun hoaRaw trueUpRaw ptype).score := by
  rw [qualifiedResult_score]
  refine clamp_ge_of_ge _ 36 (by norm_num) ?_
  have h1 := billSignal_lb billRaw
  have h2 := roofSignal_lb roofRaw
  have h3 := sunSignal_lb sun
  have h4 := hoaSignal_lb hoaRaw
  have h5 := trueUpSignal_lb trueUpRaw
  have h6 := ptypeSignal_lb ptype
  omega

theorem scoreLead_shape (g : GateConfig) (lead : LeadRecord) :
    ((scoreLead g lead).score = 0 ∧ (scoreLead g lead).tier = "Disqualified"
      ∧ (scoreLead g lead).lead_temperature = "Cold"
      ∧ (scoreLead g lead).reject_reasons ≠ [] ∧ (scoreLead g lead).marshall_eligible = false)
    ∨ ((scoreLead g lead).reject_reasons = [] ∧ 36 ≤ (scoreLead g lead).score
      ∧ (scoreLead g lead).score ≤ 100
      ∧ (scoreLead g lead).tier ∈
          (["Qualified – Send to Marshall", "Warm – Review Later", "Educational Only"] :
            List String)
      ∧ (scoreLead g lead).lead_temperature ∈ (["Hot", "Warm", "Cold"] : List String)) := by
  simp only [scoreLead, scoreLeadResolved]
  by_cases hg : geoRejects g (pick lead stateKeys) (pick lead countyKeys) = []
  · rw [if_neg (fun hc => hc hg)]
    by_cases ho : yn (pick lead ownsKeys) ≠ "yes"
    · rw [if_pos ho]
      left
      exact ⟨rfl, rfl, rfl, by simp [disqResult], rfl⟩
    · rw [if_neg ho]
      right
      refine ⟨qualifiedResult_reject _ _ _ _ _ _, qualifiedResult_score_ge _ _ _ _ _ _, ?_,
        qualifiedResult_tier _ _ _ _ _ _, qualifiedResult_temp _ _ _ _ _ _⟩
      rw [qualifiedResult_score]
      exact clamp_le_hundred _
  · rw [if_pos hg]
    left
    exact ⟨rfl, rfl, rfl, hg, rfl⟩

theorem pick_congr (r1 r2 : LeadRecord) (ks : List String)
    (h : ∀ k ∈ ks, List.lookup k r1 = List.lookup k r2) :
    pick r1 ks = pick r2 ks := by
  induction ks with
  | nil => rfl
  | cons k ks ih =>
    simp only [pick]
    rw [h k (by simp)]
    have ih2 := ih (fun a ha => h a (List.mem_cons_of_mem _ ha))
    cases List.lookup k r2 with
    | none => exact ih2
    | some v =>
      dsimp only
      by_cases ht : jsTrim v ≠ ""
      · rw [if_pos ht, if_pos ht]
      · rw [if_neg ht, if_neg ht]
        exact ih2

theorem geoRejects_off (stateRaw countyRaw : Option String) :
    geoRejects ⟨false, false⟩ stateRaw countyRaw = [] := by
  simp [geoRejects]

theorem scoreLeadResolved_bill_mono (g : GateConfig)
    (stateRaw countyRaw ownsRaw bl1 bl2 roofRaw sunRaw hoaRaw trueUpRaw ptypeRaw :
      Option String)
    (h : (billSignal (toStr bl1)).1 ≤ (billSignal (toStr bl2)).1) :
    (scoreLeadResolved g stateRaw countyRaw ownsRaw bl1 roofRaw sunRaw hoaRaw trueUpRaw
      ptypeRaw).score
    ≤ (scoreLeadResolved g stateRaw countyRaw ownsRaw bl2 roofRaw sunRaw hoaRaw trueUpRaw
      ptypeRaw).score := by
  simp only [scoreLeadResolved]
  split_ifs
  · exact le_refl _
  · exact le_refl _
  · rw [qualifiedResult_score, qualifiedResult_score]
    apply clamp_mono
    omega

theorem billSignal_low (s : String) (b : ℚ) (hb : jsNumber (stripNumeric s) = some b)
    (h0 : 0 < b) (h1 : b < 150) : billSignal s = (2, ["Low bill"]) := by
  simp only [billSignal, hb]
  rw [if_pos h0, if_neg (by intro hc; linarith), if_neg (by intro hc; linarith)]

theorem billSignal_high (s : String) (b : ℚ) (hb : jsNumber (stripNumeric s) = some b)
    (h2 : 250 ≤ b) : billSignal s = (18, ["High bill"]) := by
  simp only [billSignal, hb]
  rw [if_pos (by linarith), if_pos h2]

theorem scoreLeadResolved_gates_off (s1 c1 s2 c2 ow bl rf sn ho tr pt : Option String) :
    scoreLeadResolved ⟨false, false⟩ s1 c1 ow bl rf sn ho tr pt
    = scoreLeadResolved ⟨false, false⟩ s2 c2 ow bl rf sn ho tr pt := by
  simp [scoreLeadResolved, geoRejects_off]

theorem mem_geoRejects_CA (g : GateConfig) (st cty : Option String)
    (h : "Outside California" ∈ geoRejects g st cty) :
    g.requireCA = true ∧ toStr st ≠ "" := by
  simp only [geoRejects, List.mem_append] at h
  rcases h with h | h
  · split_ifs at h with hc
    · refine ⟨hc.1, fun he => hc.2.1 ?_⟩
      rw [he]
      rfl
    · exact absurd h (List.not_mem_nil _)
  · split_ifs at h with hc
    · exact absurd h (by decide)
    · exact absurd h (List.not_mem_nil _)

theorem mem_geoRejects_Kern (g : GateConfig) (st cty : Option String)
    (h : "Outside Kern County" ∈ geoRejects g st cty) :
    g.requireKern = true ∧ lower cty ≠ "" := by
  simp only [geoRejects, List.mem_append] at h
  rcases h with h | h
  · split_ifs at h with hc
    · exact absurd h (by decide)
    · exact absurd h (List.not_mem_nil _)
  · split_ifs at h with hc
    · exact ⟨hc.1, hc.2.1⟩
    · exact absurd h (List.not_mem_nil _)

theorem scoreLead_reject_cases (g : GateConfig) (lead : LeadRecord) :
    (scoreLead g lead).reject_reasons =
      geoRejects g (pick lead stateKeys) (pick lead countyKeys)
    ∨ (scoreLead g lead).reject_reasons = ["Not homeowner"] := by
  simp only [scoreLead, scoreLeadResolved]
  by_cases hg : geoRejects g (pick lead stateKeys) (pick lead countyKeys) = []
  · rw [if_neg (fun hc => hc hg)]
    by_cases ho : yn (pick lead ownsKeys) ≠ "yes"
    · rw [if_pos ho]
      right
      rfl
    · rw [if_neg ho]
      left
      rw [qualifiedResult_reject]
      exact hg.symm
  · rw [if_pos hg]
    left
    rfl

/-- C1 (counterexample): the claimed four-way equivalence fails on the
record with only `owns: "yes"` and both gates disabled: it scores 48 with
empty `reject_reasons` and tier `Educational Only`, yet
`marshall_eligible` is `false`, so `tier == "Disqualified" ⇔
marshall_eligible == false` does not hold. -/
theorem invariant_fourway_cx :
    ¬ (((scoreLead ⟨false, false⟩ [("owns", "yes")]).reject_reasons ≠ []
        ↔ (scoreLead ⟨false, false⟩ [("owns", "yes")]).score = 0)
      ∧ ((scoreLead ⟨false, false⟩ [("owns", "yes")]).score = 0
        ↔ (scoreLead ⟨false, false⟩ [("owns", "yes")]).tier = "Disqualified")
      ∧ ((scoreLead ⟨false, false⟩ [("owns", "yes")]).tier = "Disqualified"
        ↔ (scoreLead ⟨false, false⟩ [("owns", "yes")]).marshall_eligible = false)) := by
  decide

/-- C1 (amended): for every record and gate configuration,
`reject_reasons` non-empty ⇔ `score == 0` ⇔ `tier == "Disqualified"`, and
any of these implies `marshall_eligible == false` (the converse fails for
non-disqualified leads scoring below 75). -/
theorem invariant_threeway (g : GateConfig) (lead : LeadRecord) :
    ((scoreLead g lead).reject_reasons ≠ [] ↔ (scoreLead g lead).score = 0)
    ∧ ((scoreLead g lead).score = 0 ↔ (scoreLead g lead).tier = "Disqualified")
    ∧ ((scoreLead g lead).reject_reasons ≠ [] →
        (scoreLead g lead).marshall_eligible = false) := by
  rcases scoreLead_shape g lead with ⟨h0, ht, _, hr, he⟩ | ⟨hr, h36, _, htier, _⟩
  · exact ⟨⟨fun _ => h0, fun _ => hr⟩, ⟨fun _ => ht, fun _ => h0⟩, fun _ => he⟩
  · refine ⟨⟨fun h => absurd hr h, fun h => by omega⟩, ⟨fun h => by omega, ?_⟩,
      fun h => absurd hr h⟩
    intro h
    rw [h] at htier
    exact absurd htier (by decide)

/-- C1 (witness): the amended implication applied to a concrete
disqualified record. -/
theorem invariant_threeway_w :
    (scoreLead ⟨false, false⟩ [("owns", "no")]).marshall_eligible = false :=
  (invariant_threeway ⟨false, false⟩ [("owns", "no")]).2.2 (by decide)

/-- C2 (counterexample): a record whose ownership does not resolve to
`yes` but that also trips the enabled county gate is rejected with
`["Outside Kern County"]`, not `["Not homeowner"]`, so the claim fails as
stated for gate configurations with a geo gate enabled. -/
theorem ownership_gate_cx :
    yn (pick [("County", "Los Angeles")] ownsKeys) ≠ "yes"
    ∧ (scoreLead ⟨false, true⟩ [("County", "Los Angeles")]).reject_reasons ≠
        ["Not homeowner"] := by
  decide

/-- C2 (amended): for every record whose ownership field does not resolve
to `yes` AND which produces no geo-gate reject reasons, the scorer
returns score 0, tier `Disqualified`, `marshall_eligible == false` and
`reject_reasons == ["Not homeowner"]`. -/
theorem ownership_gate_amended (g : GateConfig) (lead : LeadRecord)
    (hgeo : geoRejects g (pick lead stateKeys) (pick lead countyKeys) = [])
    (howns : yn (pick lead ownsKeys) ≠ "yes") :
    scoreLead g lead =
      ⟨0, "Disqualified", "Cold", ["Not homeowner"], "Not homeowner", false⟩ := by
  simp only [scoreLead, scoreLeadResolved]
  rw [if_neg (fun hc => hc hgeo), if_pos howns]
  rfl

/-- C2 (witness): the amended theorem applied to the record
`owns: "no"` with both gates disabled. -/
theorem ownership_gate_w :
    scoreLead ⟨false, false⟩ [("owns", "no")] =
      ⟨0, "Disqualified", "Cold", ["Not homeowner"], "Not homeowner", false⟩ :=
  ownership_gate_amended ⟨false, false⟩ [("owns", "no")] (by decide) (by decide)

/-- C3 (counterexample): on the non-disqualified record with only
`owns: "yes"`, `score_reasons` is not the join of the six step-4 signal
reasons: the ownership reason `"Homeowner"` is prepended first
(src/index.js line 207). -/
theorem score_reasons_cx :
    (scoreLead ⟨false, false⟩ [("owns", "yes")]).reject_reasons = []
    ∧ (scoreLead ⟨false, false⟩ [("owns", "yes")]).score_reasons ≠
        String.intercalate " | " (stepFourReasons [("owns", "yes")]) := by
  decide

/-- C3 (amended): for every non-disqualified result, `score_reasons` is
exactly `"Homeowner"` followed by the reasons appended by the six step-4
signals in their fixed evaluation order, joined by `" | "`. -/
theorem score_reasons_amended (g : GateConfig) (lead : LeadRecord)
    (h : (scoreLead g lead).reject_reasons = []) :
    (scoreLead g lead).score_reasons =
      String.intercalate " | " ("Homeowner" :: stepFourReasons lead) := by
  simp only [scoreLead, scoreLeadResolved] at h ⊢
  by_cases hg : geoRejects g (pick lead stateKeys) (pick lead countyKeys) = []
  · rw [if_neg (fun hc => hc hg)] at h ⊢
    by_cases ho : yn (pick lead ownsKeys) ≠ "yes"
    · rw [if_pos ho] at h
      exact absurd h (by simp [disqResult])
    · rw [if_neg ho]
      exact qualifiedResult_reasons _ _ _ _ _ _
  · rw [if_pos hg] at h
    exact absurd h hg

/-- C3 (witness): the amended theorem applied to a concrete
non-disqualified record. -/
theorem score_reasons_w :
    (scoreLead ⟨false, false⟩ [("owns", "yes"), ("HOA?", "no")]).score_reasons =
      String.intercalate " | " ("Homeowner" :: stepFourReasons [("owns", "yes"), ("HOA?", "no")]) :=
  score_reasons_amended ⟨false, false⟩ [("owns", "yes"), ("HOA?", "no")] (by decide)

/-- C4: for every record and gate configuration the returned score is an
integer (the `score` field is carried as `Int`; `Math.round` of the
integer-valued sum is the identity) in the closed interval [0, 100]. -/
theorem score_in_range (g : GateConfig) (lead : LeadRecord) :
    0 ≤ (scoreLead g lead).score ∧ (scoreLead g lead).score ≤ 100 := by
  rcases scoreLead_shape g lead with ⟨h0, _, _, _, _⟩ | ⟨_, h36, h100, _, _⟩ <;> omega

/-- C5: whenever the county gate is enabled and the resolved county field
is non-empty and (lowercased) does not contain `"kern"`, the result has
`"Outside Kern County"` among its reject reasons and score 0, regardless
of every other field including ownership. -/
theorem kern_gate_rejects (g : GateConfig) (lead : LeadRecord)
    (hk : g.requireKern = true)
    (hne : lower (pick lead countyKeys) ≠ "")
    (hnk : jsIncludes (lower (pick lead countyKeys)) "kern" = false) :
    "Outside Kern County" ∈ (scoreLead g lead).reject_reasons
    ∧ (scoreLead g lead).score = 0 := by
  have hmem : "Outside Kern County" ∈
      geoRejects g (pick lead stateKeys) (pick lead countyKeys) := by
    simp only [geoRejects]
    rw [List.mem_append]
    right
    rw [if_pos ⟨hk, hne, hnk⟩]
    simp
  have hnil : geoRejects g (pick lead stateKeys) (pick lead countyKeys) ≠ [] := by
    intro h0
    rw [h0] at hmem
    exact absurd hmem (List.not_mem_nil _)
  simp only [scoreLead, scoreLeadResolved]
  rw [if_pos hnil]
  exact ⟨hmem, rfl⟩

/-- C5 (witness): the county gate fires on `County: "Los Angeles"` even
with ownership `yes`. -/
theorem kern_gate_rejects_w :
    "Outside Kern County" ∈
      (scoreLead ⟨false, true⟩ [("County", "Los Angeles"), ("owns", "yes")]).reject_reasons
    ∧ (scoreLead ⟨false, true⟩ [("County", "Los Angeles"), ("owns", "yes")]).score = 0 :=
  kern_gate_rejects ⟨false, true⟩ [("County", "Los Angeles"), ("owns", "yes")] rfl
    (by decide) (by decide)

/-- C6: scenario B of the spec, with both geo gates disabled: the given
record scores exactly 98 (50 base + 18 bill + 12 roof + 10 sun + 4 HOA +
4 property type), tier `Qualified – Send to Marshall`, temperature `Hot`,
`marshall_eligible == true`. -/
theorem scenarioB_score :
    scoreLead ⟨false, false⟩ [("owns", "yes"), ("Avg monthly bill", "300"),
      ("Roof age (years)", "5"), ("Sun exposure", "full sun"), ("HOA?", "no"),
      ("Property type", "single family")] =
    ⟨98, "Qualified – Send to Marshall", "Hot", [],
      "Homeowner | High bill | Roof <= 10 years | Good sun exposure | No HOA | Single family",
      true⟩ := by
  decide

/-- C9: the scorer is total by construction on string-rendered records
(it is a Lean function, mirroring the absence of any throwing operation
in src/index.js lines 163-298) and always returns a well-formed result;
the completely empty record is disqualified with reject reason
`"Not homeowner"` because ownership defaults to `unknown ≠ yes`. -/
theorem totality_wellformed :
    (∀ (g : GateConfig) (lead : LeadRecord), wellFormed (scoreLead g lead))
    ∧ (∀ g : GateConfig, scoreLead g [] =
        ⟨0, "Disqualified", "Cold", ["Not homeowner"], "Not homeowner", false⟩)
    ∧ yn (pick ([] : LeadRecord) ownsKeys) = "unknown" := by
  refine ⟨?_, ?_, by decide⟩
  · intro g lead
    rcases scoreLead_shape g lead with ⟨h0, ht, hc, _, _⟩ | ⟨_, h36, h100, htier, htemp⟩
    · exact ⟨by omega, by omega, by rw [ht]; decide, by rw [hc]; decide⟩
    · refine ⟨by omega, h100, ?_, htemp⟩
      simp only [List.mem_cons] at htier ⊢
      tauto
  · intro g
    have hst : jsToUpper (toStr (pick ([] : LeadRecord) stateKeys)) = "" := by decide
    have hcty : lower (pick ([] : LeadRecord) countyKeys) = "" := by decide
    have hgeo : geoRejects g (pick ([] : LeadRecord) stateKeys)
        (pick ([] : LeadRecord) countyKeys) = [] := by
      simp only [geoRejects, hst, hcty]
      simp
    have howns : yn (pick ([] : LeadRecord) ownsKeys) ≠ "yes" := by decide
    simp only [scoreLead, scoreLeadResolved]
    rw [if_neg (fun hc => hc hgeo), if_pos howns]
    rfl

/-- C10: every record that passes the geo gates and the ownership gate
scores at least 36 (base 50, worst case −8 for HOA and −6 for
mobile/manufactured property type); in particular `score == 0` occurs
only through disqualification. -/
theorem qualified_min_score (g : GateConfig) (lead : LeadRecord)
    (hgeo : geoRejects g (pick lead stateKeys) (pick lead countyKeys) = [])
    (howns : yn (pick lead ownsKeys) = "yes") :
    36 ≤ (scoreLead g lead).score := by
  simp only [scoreLead, scoreLeadResolved]
  rw [if_neg (fun hc => hc hgeo), if_neg (fun hc => hc howns)]
  exact qualifiedResult_score_ge _ _ _ _ _ _

/-- C10 (witness): the bound applied to the record with only
`owns: "yes"`, which scores 48. -/
theorem qualified_min_score_w :
    36 ≤ (scoreLead ⟨false, false⟩ [("owns", "yes")]).score :=
  qualified_min_score ⟨false, false⟩ [("owns", "yes")] (by decide) (by decide)

/-- C7: for two records identical outside the bill aliases, and any gate
configuration, a bill resolving numerically to a value strictly between
0 and 150 scores no more than a bill resolving to a value ≥ 250 (the
bill signal is +2 versus +18, all other signals are equal, and rounding
and clamping are monotone). -/
theorem bill_monotonicity (g : GateConfig) (r1 r2 : LeadRecord) (b1 b2 : ℚ)
    (hagree : ∀ k : String, k ∉ billKeys → List.lookup k r1 = List.lookup k r2)
    (hb1 : jsNumber (stripNumeric (toStr (pick r1 billKeys))) = some b1)
    (hb1p : 0 < b1) (hb1lt : b1 < 150)
    (hb2 : jsNumber (stripNumeric (toStr (pick r2 billKeys))) = some b2)
    (hb2ge : 250 ≤ b2) :
    (scoreLead g r1).score ≤ (scoreLead g r2).score := by
  have hp : ∀ ks : List String, (∀ k ∈ ks, k ∉ billKeys) → pick r1 ks = pick r2 ks :=
    fun ks hks => pick_congr r1 r2 ks (fun k hk => hagree k (hks k hk))
  have hst := hp stateKeys (by decide)
  have hct := hp countyKeys (by decide)
  have how := hp ownsKeys (by decide)
  have hrf := hp roofKeys (by decide)
  have hsn := hp sunKeys (by decide)
  have hho := hp hoaKeys (by decide)
  have htr := hp trueUpKeys (by decide)
  have hpt := hp ptypeKeys (by decide)
  have hsig : (billSignal (toStr (pick r1 billKeys))).1
      ≤ (billSignal (toStr (pick r2 billKeys))).1 := by
    rw [billSignal_low _ b1 hb1 hb1p hb1lt, billSignal_high _ b2 hb2 hb2ge]
    norm_num
  simp only [scoreLead]
  rw [hst, hct, how, hrf, hsn, hho, htr, hpt]
  exact scoreLeadResolved_bill_mono g _ _ _ _ _ _ _ _ _ _ hsig

/-- C7 (witness): the monotonicity theorem applied to two concrete
records with bills 100 and 300. -/
theorem bill_monotonicity_w :
    (scoreLead ⟨false, false⟩ [("owns", "yes"), ("bill", "100")]).score
    ≤ (scoreLead ⟨false, false⟩ [("owns", "yes"), ("bill", "300")]).score := by
  refine bill_monotonicity ⟨false, false⟩ _ _ 100 300 ?_
    (by decide) (by decide) (by decide) (by decide) (by decide)
  intro k hk
  have hb : k ≠ "bill" := by
    intro h
    subst h
    exact hk (by decide)
  by_cases ho : k = "owns"
  · subst ho
    rfl
  · have hb2 : (k == "bill") = false := by rwa [beq_eq_false_iff_ne]
    have ho2 : (k == "owns") = false := by rwa [beq_eq_false_iff_ne]
    simp [List.lookup, hb2, ho2]

/-- C8: with both gate switches disabled the state and county fields have
no influence (two records agreeing outside `State`/`state`/`County`/
`county` score identically), and each geo gate contributes its reject
reason only when its switch is enabled and its resolved field is
non-empty. -/
theorem geo_noninterference :
    (∀ r1 r2 : LeadRecord,
      (∀ k : String, k ∉ (["State", "state", "County", "county"] : List String) →
        List.lookup k r1 = List.lookup k r2) →
      scoreLead ⟨false, false⟩ r1 = scoreLead ⟨false, false⟩ r2)
    ∧ (∀ (g : GateConfig) (lead : LeadRecord),
        ("Outside California" ∈ (scoreLead g lead).reject_reasons →
          g.requireCA = true ∧ toStr (pick lead stateKeys) ≠ "")
        ∧ ("Outside Kern County" ∈ (scoreLead g lead).reject_reasons →
          g.requireKern = true ∧ lower (pick lead countyKeys) ≠ "")) := by
  constructor
  · intro r1 r2 hagree
    have hp : ∀ ks : List String,
        (∀ k ∈ ks, k ∉ (["State", "state", "County", "county"] : List String)) →
        pick r1 ks = pick r2 ks :=
      fun ks hks => pick_congr r1 r2 ks (fun k hk => hagree k (hks k hk))
    have how := hp ownsKeys (by decide)
    have hbl := hp billKeys (by decide)
    have hrf := hp roofKeys (by decide)
    have hsn := hp sunKeys (by decide)
    have hho := hp hoaKeys (by decide)
    have htr := hp trueUpKeys (by decide)
    have hpt := hp ptypeKeys (by decide)
    simp only [scoreLead]
    rw [how, hbl, hrf, hsn, hho, htr, hpt]
    exact scoreLeadResolved_gates_off _ _ _ _ _ _ _ _ _ _ _
  · intro g lead
    constructor
    · intro h
      rcases scoreLead_reject_cases g lead with hc | hc
      · rw [hc] at h
        exact mem_geoRejects_CA g _ _ h
      · rw [hc] at h
        exact absurd h (by decide)
    · intro h
      rcases scoreLead_reject_cases g lead with hc | hc
      · rw [hc] at h
        exact mem_geoRejects_Kern g _ _ h
      · rw [hc] at h
        exact absurd h (by decide)

/-- C8 (witness): the noninterference half applied to two records
differing only in `State`, and the only-when half applied to a record
rejected by the enabled state gate. -/
theorem geo_noninterference_w :
    scoreLead ⟨false, false⟩ [("owns", "yes"), ("State", "CA")]
      = scoreLead ⟨false, false⟩ [("owns", "yes"), ("State", "NY")]
    ∧ GateConfig.requireCA ⟨true, false⟩ = true
    ∧ toStr (pick [("State", "NY")] stateKeys) ≠ "" := by
  refine ⟨geo_noninterference.1 _ _ ?_,
    ((geo_noninterference.2 ⟨true, false⟩ [("State", "NY")]).1 (by decide)).1,
    ((geo_noninterference.2 ⟨true, false⟩ [("State", "NY")]).1 (by decide)).2⟩
  intro k hk
  have hs : k ≠ "State" := by
    intro h
    subst h
    exact hk (by decide)
  by_cases ho : k = "owns"
  · subst ho
    rfl
  · have hs2 : (k == "State") = false := by rwa [beq_eq_false_iff_ne]
    have ho2 : (k == "owns") = false := by rwa [beq_eq_false_iff_ne]
    simp [List.lookup, hs2, ho2]

end RenewBrain
